import Mathlib

/-!
Shallow embedding of the `hipchat` client library (modules
`hipchat/api.py`, `hipchat/data.py`, `hipchat/rooms.py`,
`hipchat/users.py`, `hipchat/messages.py`) and proofs about it.

Python values appearing in payloads and parameters are modelled by the
`Json` type below (JSON numbers are modelled as integers; all
timestamps and ids in this API are integral).  Python dictionaries are
modelled as association lists over string keys with Python `dict`
semantics (`get`, `[]`, `update`, `in`).  Python exceptions are
modelled by the `PyExc` error type of an `Except` monad: the library's
own exception hierarchy from `api.py` lives in `HipchatExc`, and the
builtin exceptions that the code can raise (`ValueError`, `KeyError`,
`AttributeError`, `TypeError`, and `iso8601.ParseError`) are separate
constructors.

The HTTP layer (`requests.get` / `requests.post`) is modelled by a
function `Http : Request → Response` giving the remote service's
response to each request, and every method returns, next to its
result, the list of requests it issued, so that "issues exactly one
HTTP call" is a provable statement.
-/

/-- A JSON / Python scalar-or-container value. -/
inductive Json where
  | null
  | bool (b : Bool)
  | num (n : Int)
  | str (s : String)
  | arr (elems : List Json)
  | obj (fields : List (String × Json))

/-- A parsed JSON object body / Python dict with string keys. -/
abbrev Dict := List (String × Json)

/-- Python `d.get(k)`: the stored value, or `None` when the key is absent. -/
def pyGet (d : Dict) (k : String) : Json :=
  (d.lookup k).getD .null

/-- Python `d.get(k, dflt)`. -/
def pyGetD (d : Dict) (k : String) (dflt : Json) : Json :=
  (d.lookup k).getD dflt

/-- Python `d[k] = v`: replace the value in place if the key exists,
append otherwise (insertion order is preserved as in a Python dict). -/
def dset (d : Dict) (k : String) (v : Json) : Dict :=
  match d with
  | [] => [(k, v)]
  | (k0, v0) :: rest => if k0 = k then (k0, v) :: rest else (k0, v0) :: dset rest k v

/-- Python `d.update(kvs)`: set every key of `kvs` in `d`. -/
def pyUpdate (d : Dict) (kvs : Dict) : Dict :=
  kvs.foldl (fun acc kv => dset acc kv.1 kv.2) d

/-- Python truthiness of a `Json` value (`if data:`). -/
def pyTruthy : Json → Bool
  | .null => false
  | .bool b => b
  | .num n => n != 0
  | .str s => s != ""
  | .arr xs => !xs.isEmpty
  | .obj fs => !fs.isEmpty

/-- The exception hierarchy of `hipchat/api.py`.  Exception messages are
the object passed to the constructor; for the five specific errors that
is `errmsg` (a value pulled out of the JSON body), and for the generic
`HipchatError` branch the code formats the string
`'%d: %s' % (code, errmsg)`, which we keep as its two components. -/
inductive HipchatExc where
  | badRequest (msg : Json)
  | authorizationError (msg : Json)
  | notFoundError (msg : Json)
  | rateLimitExceeded (msg : Json)
  | serviceUnavailable (msg : Json)
  | hipchatError (code : Nat) (msg : Json)

/-- Python exceptions the library can raise: its own hierarchy plus the
builtins reachable from this code. -/
inductive PyExc where
  | hipchat (e : HipchatExc)
  | valueError (msg : String)
  | keyError (key : String)
  | attributeError (attr : String)
  | typeError (msg : String)
  | parseError (msg : String)

/-- An HTTP response as the code consumes it: the status code and the
parsed JSON body.  `_unwrap_response` immediately calls `.get` on the
parsed body, and the HipChat API always answers with a JSON object, so
the body is typed as a `Dict`. -/
structure Response where
  status_code : Nat
  body : Dict

/-- Line 77 of `api.py`: `json.get('error', {}).get('message', 'Unknown
error')`.  If the body's `error` field holds a non-dict value, the inner
`.get` is an attribute lookup on a non-dict and Python raises
`AttributeError`. -/
def errmsgOf (json : Dict) : Except PyExc Json :=
  match pyGetD json "error" (.obj []) with
  | .obj efs => .ok (pyGetD efs "message" (.str "Unknown error"))
  | _ => .error (.attributeError "get")

/-- Model of `Api._unwrap_response` (api.py lines 73-92): compute `errmsg` from
the body, then dispatch on the status code.  200 returns the parsed
body itself; 400/401/404/403/503 raise the matching exception carrying
`errmsg`; any other code raises the generic `HipchatError`. -/
def Api.unwrap_response (resp : Response) : Except PyExc Dict :=
  match errmsgOf resp.body with
  | .error e => .error e
  | .ok errmsg =>
    if resp.status_code = 200 then .ok resp.body
    else if resp.status_code = 400 then .error (.hipchat (.badRequest errmsg))
    else if resp.status_code = 401 then .error (.hipchat (.authorizationError errmsg))
    else if resp.status_code = 404 then .error (.hipchat (.notFoundError errmsg))
    else if resp.status_code = 403 then .error (.hipchat (.rateLimitExceeded errmsg))
    else if resp.status_code = 503 then .error (.hipchat (.serviceUnavailable errmsg))
    else .error (.hipchat (.hipchatError resp.status_code errmsg))

/-- A `datetime.datetime` produced by `datetime.datetime.fromtimestamp`.
The claims only distinguish `None` from "a datetime", so the local-time
conversion is kept abstract: the datetime is represented by the epoch
timestamp it was built from. -/
structure Datetime where
  epoch : Int

/-- Model of `datetime.datetime.fromtimestamp`. -/
def Datetime.fromtimestamp (n : Int) : Datetime := ⟨n⟩

/-- A `datetime.datetime` produced by `iso8601.parse_date`, again kept
abstract as the ISO string it was parsed from. -/
structure IsoDate where
  raw : String

/-- Model of `iso8601.parse_date`: Python strings parse (the claims only
use well-formed payloads, so string validity is not modelled); any other
argument makes the library raise its `ParseError`. -/
def parse_date : Json → Except PyExc IsoDate
  | .str s => .ok ⟨s⟩
  | _ => .error (.parseError "expecting a string")

/-- Accumulate decimal digits; `none` on a non-digit or an empty list. -/
def digitsToNat : List Char → Nat → Option Nat
  | [], acc => some acc
  | c :: cs, acc =>
    if c.isDigit then digitsToNat cs (acc * 10 + (c.toNat - '0'.toNat)) else none

/-- Python `int(s)` on a string: an optional sign followed by at least
one decimal digit (surrounding whitespace, accepted by Python, is not
modelled; the payload values exercised by the claims are bare digit
strings). -/
def strToInt : String → Option Int
  | s =>
    match s.data with
    | [] => none
    | '-' :: cs => if cs.isEmpty then none else (digitsToNat cs 0).map (fun n => -(n : Int))
    | '+' :: cs => if cs.isEmpty then none else (digitsToNat cs 0).map (fun n => (n : Int))
    | cs => (digitsToNat cs 0).map (fun n => (n : Int))

/-- Python `int(x)` on a payload value: ints are themselves, bools are
0/1, numeric strings parse, other strings raise `ValueError`, and
non-number non-string values raise `TypeError`. -/
def pyInt : Json → Except PyExc Int
  | .num n => .ok n
  | .bool b => .ok (if b then 1 else 0)
  | .str s =>
    match strToInt s with
    | some n => .ok n
    | none => .error (.valueError s)
  | _ => .error (.typeError "int() argument")

/-- Model of `HipchatObject._parse_ts` (data.py lines 25-27):
`datetime.datetime.fromtimestamp(data) if data else None` — a falsy
value (`None` or `0`) yields `None`; a truthy number (Python bools are
ints) is converted; a truthy non-number makes `fromtimestamp` raise
`TypeError`. -/
def HipchatObject.parse_ts (data : Json) : Except PyExc (Option Datetime) :=
  if pyTruthy data then
    match data with
    | .num n => .ok (some (Datetime.fromtimestamp n))
    | .bool b => .ok (some (Datetime.fromtimestamp (if b then 1 else 0)))
    | _ => .error (.typeError "fromtimestamp")
  else
    .ok none

/-- Python `d[k]` on a dict: the value, or `KeyError` when absent. -/
def pyGetItem (d : Dict) (k : String) : Except PyExc Json :=
  match d.lookup k with
  | some v => .ok v
  | none => .error (.keyError k)

/-- The tuple `User.attributes` (users.py lines 19-20) driving the
generic `HipchatObject._parse` loop. -/
def User.attributes : List String :=
  ["user_id", "name", "mention_name", "email", "title",
   "photo_url", "status", "status_message", "password"]

/-- A `hipchat.users.User` object after `User._parse`.  The nine fields
listed in `User.attributes` are set by `HipchatObject._parse` to
`data.get(attr)` (so they hold raw payload values), and `User._parse`
then adds the two coerced booleans and the two parsed timestamps. -/
structure User where
  user_id : Json
  name : Json
  mention_name : Json
  email : Json
  title : Json
  photo_url : Json
  status : Json
  status_message : Json
  password : Json
  is_group_admin : Bool
  is_deleted : Bool
  last_active : Option Datetime
  created : Option Datetime

/-- The `User` built from `data` once the fallible conversions have
produced their values (the assignments of `User._parse`). -/
def User.build (data : Dict) (iga idl : Int) (la cr : Option Datetime) : User :=
  { user_id := pyGet data "user_id"
    name := pyGet data "name"
    mention_name := pyGet data "mention_name"
    email := pyGet data "email"
    title := pyGet data "title"
    photo_url := pyGet data "photo_url"
    status := pyGet data "status"
    status_message := pyGet data "status_message"
    password := pyGet data "password"
    is_group_admin := iga != 0
    is_deleted := idl != 0
    last_active := la
    created := cr }

/-- Exception propagation: run the first step; if it raised, the
exception propagates, otherwise continue with its value. -/
def ebind (x : Except PyExc α) (f : α → Except PyExc β) : Except PyExc β :=
  match x with
  | .error e => .error e
  | .ok a => f a

/-- Model of `User._parse` (users.py lines 25-32): the generic attribute loop,
then `is_group_admin = bool(int(data.get('is_group_admin', 0)))`,
`is_deleted = bool(int(data.get('is_deleted', 0)))`, and the two
`_parse_ts` calls, in source order. -/
def User.parse (data : Dict) : Except PyExc User :=
  ebind (pyInt (pyGetD data "is_group_admin" (.num 0))) (fun iga =>
  ebind (pyInt (pyGetD data "is_deleted" (.num 0))) (fun idl =>
  ebind (HipchatObject.parse_ts (pyGet data "last_active")) (fun la =>
  ebind (HipchatObject.parse_ts (pyGet data "created")) (fun cr =>
  .ok (User.build data iga idl la cr)))))

/-- The tuple `Room.attributes` (rooms.py lines 24-25). -/
def Room.attributes : List String :=
  ["xmpp_jid", "name", "is_archived", "room_id",
   "owner_user_id", "is_private", "guest_access_url"]

/-- A `hipchat.rooms.Room` object after `Room._parse`: the seven raw
attributes from the generic loop, the private `_topic` backing field of
the `topic` property, the two parsed timestamps, and the participant
list. -/
structure Room where
  xmpp_jid : Json
  name : Json
  is_archived : Json
  room_id : Json
  owner_user_id : Json
  is_private : Json
  guest_access_url : Json
  topicAttr : Json
  last_active : Option Datetime
  created : Option Datetime
  participants : List User

/-- The `Room` built from `data` once the fallible steps have produced
their values (the assignments of `Room._parse`). -/
def Room.build (data : Dict) (topic : Json) (la cr : Option Datetime)
    (ps : List User) : Room :=
  { xmpp_jid := pyGet data "xmpp_jid"
    name := pyGet data "name"
    is_archived := pyGet data "is_archived"
    room_id := pyGet data "room_id"
    owner_user_id := pyGet data "owner_user_id"
    is_private := pyGet data "is_private"
    guest_access_url := pyGet data "guest_access_url"
    topicAttr := topic
    last_active := la
    created := cr
    participants := ps }

/-- Apply `User._parse` to one payload value: the value must be a dict
(on anything else the generic loop's `.get` attribute lookup raises
`AttributeError`).  Used for the entries of a room's `participants`
list and for a message's `from` field. -/
def parseUserObj : Json → Except PyExc User
  | .obj pf => User.parse pf
  | _ => .error (.attributeError "get")

/-- The `participants` assignment of `Room._parse` (rooms.py lines
36-40): when the key is present its value is iterated and each entry
parsed with `cls.api.users._parse`, otherwise the list is empty.
Iterating a non-list value is modelled as a `TypeError`; no claim
exercises that case. -/
def parseParticipants (data : Dict) : Except PyExc (List User) :=
  match data.lookup "participants" with
  | none => .ok []
  | some (.arr ps) => ps.mapM parseUserObj
  | some _ => .error (.typeError "not iterable")

/-- Model of `Room._parse` (rooms.py lines 30-42): the generic loop, then
`obj._topic = data['topic']` (a `KeyError` if absent), the two
`_parse_ts` calls, and the participants, in source order. -/
def Room.parse (data : Dict) : Except PyExc Room :=
  ebind (pyGetItem data "topic") (fun topic =>
  ebind (HipchatObject.parse_ts (pyGet data "last_active")) (fun la =>
  ebind (HipchatObject.parse_ts (pyGet data "created")) (fun cr =>
  ebind (parseParticipants data) (fun ps =>
  .ok (Room.build data topic la cr ps)))))

/-- A `hipchat.messages.Message` object after `Message._parse`:
`message` from the generic loop over `('message',)`, the parsed `date`,
and the partial `from_user`. -/
structure Message where
  message : Json
  date : IsoDate
  from_user : User

/-- Model of `Message._parse` (messages.py lines 25-30): the generic loop, then
`obj.date = parse_date(data['date'])` and
`obj.from_user = user_class._parse(data['from'])` (each subscript a
`KeyError` if absent; a non-dict `from` value makes the generic loop's
`.get` raise `AttributeError`). -/
def Message.parse (data : Dict) : Except PyExc Message :=
  ebind (pyGetItem data "date") (fun dateRaw =>
  ebind (parse_date dateRaw) (fun date =>
  ebind (pyGetItem data "from") (fun fromRaw =>
  ebind (parseUserObj fromRaw) (fun u =>
  .ok { message := pyGet data "message", date := date, from_user := u }))))

/-- An outbound HTTP request as `requests.get`/`requests.post` receive
it: the verb, the full URL, the query parameters (`params=`) and the
form-encoded body (`data=`, empty for GET). -/
structure Request where
  verb : String
  url : String
  params : Dict
  form : Dict

/-- The remote service, modelled as a function answering each request. -/
abbrev Http := Request → Response

/-- The `Api` object's state after `__init__` (api.py lines 44-68). -/
structure Api where
  auth_token : String
  base_url : String
  from_name : String

/-- The constant `Api.BASE_URL` (api.py line 41). -/
def Api.BASE_URL : String := "https://api.hipchat.com/v1/"

/-- The constant `Api.FROM_NAME` (api.py line 42). -/
def Api.FROM_NAME : String := "API"

/-- Python `x or default` over an optional string: `None` and the empty
string are falsy and select the default. -/
def pyOrStr (x : Option String) (dflt : String) : String :=
  match x with
  | some s => if s = "" then dflt else s
  | none => dflt

/-- Model of `Api.__init__`: store the token and apply the `or`-defaults for
`base_url` and `from_name`. -/
def Api.init (auth_token : String) (from_name : Option String := none)
    (base_url : Option String := none) : Api :=
  { auth_token := auth_token
    base_url := pyOrStr base_url Api.BASE_URL
    from_name := pyOrStr from_name Api.FROM_NAME }

/-- The request built by `Api._get` (api.py lines 94-100): URL is
`base_url + method`, and the query string is the caller's kwargs updated
with `format=json` and `auth_token`; a GET carries no body. -/
def Api.getRequest (api : Api) (method : String) (kwargs : Dict) : Request :=
  { verb := "GET"
    url := api.base_url ++ method
    params := pyUpdate kwargs [("format", .str "json"), ("auth_token", .str api.auth_token)]
    form := [] }

/-- Model of `Api._get` (api.py lines 94-101): build the request, issue it, and
unwrap the response.  The second component is the list of requests
issued by the call. -/
def Api.get (api : Api) (method : String) (kwargs : Dict) (http : Http) :
    Except PyExc Dict × List Request :=
  let req := api.getRequest method kwargs
  (Api.unwrap_response (http req), [req])

/-- The request built by `Api._post` (api.py lines 103-111): the query
string holds exactly `format=json` and `auth_token`; the kwargs, with
`from` defaulted to the Api's `from_name` when absent, travel as the
form-encoded body. -/
def Api.postRequest (api : Api) (method : String) (kwargs : Dict) : Request :=
  { verb := "POST"
    url := api.base_url ++ method
    params := [("format", .str "json"), ("auth_token", .str api.auth_token)]
    form := if (kwargs.lookup "from").isNone
            then dset kwargs "from" (.str api.from_name)
            else kwargs }

/-- Model of `Api._post` (api.py lines 103-112). -/
def Api.post (api : Api) (method : String) (kwargs : Dict) (http : Http) :
    Except PyExc Dict × List Request :=
  let req := api.postRequest method kwargs
  (Api.unwrap_response (http req), [req])

/-- Reading the `topic` property (rooms.py lines 67-77) returns the
stored `_topic` backing field; by construction it takes no `Http`
argument and can issue no request. -/
def Room.topic (room : Room) : Json :=
  room.topicAttr

/-- The `topic` property setter (rooms.py lines 79-83): one POST to
`rooms/topic`; only if `_post` returns (rather than raises) is the
backing field assigned, so a failed set leaves the stored topic
unchanged.  The result pairs the Python outcome (an exception, or the
discarded return value) with the room object after the call. -/
def Room.topic_set (api : Api) (room : Room) (value : Json) (http : Http) :
    (Except PyExc Unit × Room) × List Request :=
  let (res, reqs) := api.post "rooms/topic"
    [("room_id", room.room_id), ("topic", value)] http
  match res with
  | .ok _ => ((.ok (), { room with topicAttr := value }), reqs)
  | .error e => ((.error e, room), reqs)

/-- Model of `Room.delete` (rooms.py lines 149-156): one POST to `rooms/delete`;
the method body never assigns to `self`, so the room object after the
call is returned unchanged. -/
def Room.delete (api : Api) (room : Room) (http : Http) :
    (Except PyExc Unit × Room) × List Request :=
  let (res, reqs) := api.post "rooms/delete" [("room_id", room.room_id)] http
  ((res.map (fun _ => ()), room), reqs)

/-- Model of `User.delete` (users.py lines 100-106): one POST to `users/delete`;
the method body never assigns to `self`. -/
def User.delete (api : Api) (user : User) (http : Http) :
    (Except PyExc Unit × User) × List Request :=
  let (res, reqs) := api.post "users/delete" [("user_id", user.user_id)] http
  ((res.map (fun _ => ()), user), reqs)

/-- Model of `User.undelete` (users.py lines 108-126): `ValueError` when both or
neither identifier is given, before any request; otherwise one POST to
`users/undelete` whose `user_id` parameter carries whichever identifier
was provided. -/
def User.undelete (api : Api) (user_id : Option Json) (user_email : Option Json)
    (http : Http) : Except PyExc Dict × List Request :=
  match user_id, user_email with
  | some _, some _ =>
    (.error (.valueError "only one of user_id or user_email should be provided, not both"), [])
  | none, none =>
    (.error (.valueError "either user_id or user_email should be provided"), [])
  | some uid, none => api.post "users/undelete" [("user_id", uid)] http
  | none, some em => api.post "users/undelete" [("user_id", em)] http

/-- A Python `datetime.date`. -/
structure PyDate where
  year : Nat
  month : Nat
  day : Nat

/-- Zero-pad a numeral to two digits. -/
def pad2 (n : Nat) : String :=
  if n < 10 then "0" ++ toString n else toString n

/-- Zero-pad a numeral to four digits. -/
def pad4 (n : Nat) : String :=
  if n < 10 then "000" ++ toString n
  else if n < 100 then "00" ++ toString n
  else if n < 1000 then "0" ++ toString n
  else toString n

/-- Model of the call date.strftime with format string %Y-%m-%d. -/
def PyDate.strftimeYmd (d : PyDate) : String :=
  pad4 d.year ++ "-" ++ pad2 d.month ++ "-" ++ pad2 d.day

/-- The `date` argument of `Room.history`: either a string (such as the
default `'recent'`) or a `datetime.date`. -/
inductive HistoryDate where
  | str (s : String)
  | date (d : PyDate)

/-- Parse one entry of `data['messages']`: `Message._parse(m, ...)`
needs `m` to be a dict. -/
def parseHistoryMessage : Json → Except PyExc Message
  | .obj mf => Message.parse mf
  | _ => .error (.attributeError "get")

/-- Model of `Room.history` (rooms.py lines 106-123).  For a `datetime.date`
argument the code first rebinds `date` to the string
`date.strftime('%Y-%m-%d')` and then evaluates `date.today()` on that
string; a `str` has no attribute `today`, so Python raises
`AttributeError` before any request is issued.  For a string argument it
performs one GET on `rooms/history` and parses `data['messages']` with
`Message._parse` (a missing key is a `KeyError`; iterating a non-list
value is modelled as a `TypeError`, a case no claim exercises). -/
def Room.history (api : Api) (room : Room) (date : HistoryDate)
    (timezone : String := "UTC") (http : Http) :
    Except PyExc (List Message) × List Request :=
  match date with
  | .date d =>
    let _rebound : String := d.strftimeYmd
    (.error (.attributeError "today"), [])
  | .str s =>
    let (res, reqs) := api.get "rooms/history"
      [("room_id", room.room_id), ("date", .str s), ("timezone", .str timezone)] http
    match res with
    | .error e => (.error e, reqs)
    | .ok data =>
      match data.lookup "messages" with
      | none => (.error (.keyError "messages"), reqs)
      | some (.arr ms) => (ms.mapM parseHistoryMessage, reqs)
      | some _ => (.error (.typeError "not iterable"), reqs)

/-- Payload used for the C4 witness. -/
def c4UserData : Dict :=
  [("user_id", .num 5), ("name", .str "Bob"), ("is_group_admin", .num 1),
   ("is_deleted", .num 0), ("created", .num 1000)]

/-- The user `User._parse` builds from `c4UserData`. -/
def c4User : User :=
  { user_id := .num 5, name := .str "Bob", mention_name := .null,
    email := .null, title := .null, photo_url := .null, status := .null,
    status_message := .null, password := .null,
    is_group_admin := true, is_deleted := false,
    last_active := none, created := some ⟨1000⟩ }

/-- Room payload used for the C4 witness. -/
def c4RoomData : Dict :=
  [("room_id", .num 9), ("topic", .str "hello"), ("last_active", .num 50)]

/-- The room `Room._parse` builds from `c4RoomData`. -/
def c4Room : Room :=
  { xmpp_jid := .null, name := .null, is_archived := .null,
    room_id := .num 9, owner_user_id := .null, is_private := .null,
    guest_access_url := .null, topicAttr := .str "hello",
    last_active := some ⟨50⟩, created := none, participants := [] }

/-- Message payload used for the C4 witness. -/
def c4MsgData : Dict :=
  [("date", .str "2013-05-01T10:00:00+00:00"),
   ("from", .obj [("user_id", .num 5), ("name", .str "Bob")]),
   ("message", .str "hi")]

/-- The message `Message._parse` builds from `c4MsgData`. -/
def c4Msg : Message :=
  { message := .str "hi", date := ⟨"2013-05-01T10:00:00+00:00"⟩,
    from_user :=
      { user_id := .num 5, name := .str "Bob", mention_name := .null,
        email := .null, title := .null, photo_url := .null, status := .null,
        status_message := .null, password := .null,
        is_group_admin := false, is_deleted := false,
        last_active := none, created := none } }

/-- Payload with a zero `created` and an absent `last_active`, for the
C10 witness. -/
def c10UserData : Dict := [("created", .num 0)]

/-- The user `User._parse` builds from `c10UserData`. -/
def c10User : User :=
  { user_id := .null, name := .null, mention_name := .null,
    email := .null, title := .null, photo_url := .null, status := .null,
    status_message := .null, password := .null,
    is_group_admin := false, is_deleted := false,
    last_active := none, created := none }

/-- Room payload with a zero `created` and a non-zero `last_active`,
for the C10 witness. -/
def c10RoomData : Dict :=
  [("topic", .null), ("created", .num 0), ("last_active", .num 7)]

/-- The room `Room._parse` builds from `c10RoomData`. -/
def c10Room : Room :=
  { xmpp_jid := .null, name := .null, is_archived := .null,
    room_id := .null, owner_user_id := .null, is_private := .null,
    guest_access_url := .null, topicAttr := .null,
    last_active := some ⟨7⟩, created := none, participants := [] }

/-- The Api object used by the concrete witnesses. -/
def apiW : Api := Api.init "secret-token"

/-- A service that answers every request with 200 and an empty body. -/
def httpOkEmpty : Http := fun _ => ⟨200, []⟩

/-- A service that answers every request with 503 and an empty body. -/
def http503 : Http := fun _ => ⟨503, []⟩

/-- The room object used by the C7 witness. -/
def c7Room : Room :=
  { xmpp_jid := .null, name := .str "lobby", is_archived := .null,
    room_id := .num 11, owner_user_id := .null, is_private := .null,
    guest_access_url := .null, topicAttr := .str "old topic",
    last_active := none, created := none, participants := [] }

/-- The room object used by the C5 witness. -/
def c5Room : Room :=
  { xmpp_jid := .null, name := .str "lobby", is_archived := .null,
    room_id := .num 11, owner_user_id := .null, is_private := .null,
    guest_access_url := .null, topicAttr := .str "t",
    last_active := none, created := none, participants := [] }

/-- The room object used by the C8 witness. -/
def c8Room : Room :=
  { xmpp_jid := .null, name := .str "ops", is_archived := .null,
    room_id := .num 3, owner_user_id := .null, is_private := .null,
    guest_access_url := .null, topicAttr := .str "t",
    last_active := none, created := none, participants := [] }

/-- The user object used by the C8 witness. -/
def c8User : User :=
  { user_id := .num 12, name := .str "Ann", mention_name := .null,
    email := .null, title := .null, photo_url := .null, status := .null,
    status_message := .null, password := .null,
    is_group_admin := false, is_deleted := false,
    last_active := none, created := none }

theorem ebind_ok (a : α) (f : α → Except PyExc β) : ebind (.ok a) f = f a := rfl

theorem ebind_error (e : PyExc) (f : α → Except PyExc β) :
    ebind (.error e) f = .error e := rfl

theorem lookup_dset_self (d : Dict) (k : String) (v : Json) :
    (dset d k v).lookup k = some v := by
  induction d with
  | nil => simp [dset, List.lookup]
  | cons kv rest ih =>
    obtain ⟨k0, v0⟩ := kv
    by_cases h : k0 = k
    · subst h
      simp [dset, List.lookup]
    · simp only [dset, if_neg h, List.lookup]
      have : (k == k0) = false := by
        simp [beq_iff_eq]
        exact fun hk => h hk.symm
      simp [this, ih]

theorem lookup_dset_ne (d : Dict) (k k' : String) (v : Json) (h : k' ≠ k) :
    (dset d k v).lookup k' = d.lookup k' := by
  induction d with
  | nil =>
    have hb : (k' == k) = false := by simp [beq_iff_eq, h]
    simp [dset, List.lookup, hb]
  | cons kv rest ih =>
    obtain ⟨k0, v0⟩ := kv
    by_cases hk : k0 = k
    · subst hk
      have : (k' == k0) = false := by simp [beq_iff_eq, h]
      simp [dset, List.lookup, this]
    · simp only [dset, if_neg hk, List.lookup]
      by_cases he : k' = k0
      · subst he
        simp [List.lookup]
      · have : (k' == k0) = false := by simp [beq_iff_eq, he]
        simp [List.lookup, this, ih]

theorem pyGet_eq_of_lookup {d : Dict} {k : String} {v : Json}
    (h : d.lookup k = some v) : pyGet d k = v := by
  simp [pyGet, h]

theorem pyGet_eq_null_of_lookup_none {d : Dict} {k : String}
    (h : d.lookup k = none) : pyGet d k = .null := by
  simp [pyGet, h]

theorem parse_ts_null : HipchatObject.parse_ts .null = .ok none := rfl

theorem parse_ts_zero : HipchatObject.parse_ts (.num 0) = .ok none := rfl

theorem parse_ts_num {t : Int} (ht : t ≠ 0) :
    HipchatObject.parse_ts (.num t) = .ok (some (Datetime.fromtimestamp t)) := by
  simp [HipchatObject.parse_ts, pyTruthy, ht]

theorem errmsgOf_error_shape {j : Dict} {e : PyExc} (h : errmsgOf j = .error e) :
    e = .attributeError "get" := by
  unfold errmsgOf at h
  cases hp : pyGetD j "error" (.obj []) <;> rw [hp] at h <;> simp at h <;> simp [h]

theorem unwrap_response_ne_valueError (resp : Response) (s : String) :
    Api.unwrap_response resp ≠ .error (.valueError s) := by
  unfold Api.unwrap_response
  cases h : errmsgOf resp.body with
  | error e =>
    simp only [h]
    rw [errmsgOf_error_shape h]
    simp
  | ok m =>
    simp only [h]
    split_ifs <;> simp

theorem User_parse_inv {data : Dict} {u : User} (h : User.parse data = .ok u) :
    ∃ iga idl la cr,
      pyInt (pyGetD data "is_group_admin" (.num 0)) = .ok iga ∧
      pyInt (pyGetD data "is_deleted" (.num 0)) = .ok idl ∧
      HipchatObject.parse_ts (pyGet data "last_active") = .ok la ∧
      HipchatObject.parse_ts (pyGet data "created") = .ok cr ∧
      u = User.build data iga idl la cr := by
  unfold User.parse at h
  cases h1 : pyInt (pyGetD data "is_group_admin" (.num 0)) with
  | error e => rw [h1, ebind_error] at h; exact absurd h (by simp)
  | ok iga =>
  rw [h1] at h; simp only [ebind_ok] at h
  cases h2 : pyInt (pyGetD data "is_deleted" (.num 0)) with
  | error e => rw [h2, ebind_error] at h; exact absurd h (by simp)
  | ok idl =>
  rw [h2] at h; simp only [ebind_ok] at h
  cases h3 : HipchatObject.parse_ts (pyGet data "last_active") with
  | error e => rw [h3, ebind_error] at h; exact absurd h (by simp)
  | ok la =>
  rw [h3] at h; simp only [ebind_ok] at h
  cases h4 : HipchatObject.parse_ts (pyGet data "created") with
  | error e => rw [h4, ebind_error] at h; exact absurd h (by simp)
  | ok cr =>
  rw [h4] at h; simp only [ebind_ok, Except.ok.injEq] at h
  exact ⟨iga, idl, la, cr, rfl, rfl, rfl, rfl, h.symm⟩

theorem Room_parse_inv {data : Dict} {r : Room} (h : Room.parse data = .ok r) :
    ∃ topic la cr ps,
      pyGetItem data "topic" = .ok topic ∧
      HipchatObject.parse_ts (pyGet data "last_active") = .ok la ∧
      HipchatObject.parse_ts (pyGet data "created") = .ok cr ∧
      parseParticipants data = .ok ps ∧
      r = Room.build data topic la cr ps := by
  unfold Room.parse at h
  cases h1 : pyGetItem data "topic" with
  | error e => rw [h1, ebind_error] at h; exact absurd h (by simp)
  | ok topic =>
  rw [h1] at h; simp only [ebind_ok] at h
  cases h2 : HipchatObject.parse_ts (pyGet data "last_active") with
  | error e => rw [h2, ebind_error] at h; exact absurd h (by simp)
  | ok la =>
  rw [h2] at h; simp only [ebind_ok] at h
  cases h3 : HipchatObject.parse_ts (pyGet data "created") with
  | error e => rw [h3, ebind_error] at h; exact absurd h (by simp)
  | ok cr =>
  rw [h3] at h; simp only [ebind_ok] at h
  cases h4 : parseParticipants data with
  | error e => rw [h4, ebind_error] at h; exact absurd h (by simp)
  | ok ps =>
  rw [h4] at h; simp only [ebind_ok, Except.ok.injEq] at h
  exact ⟨topic, la, cr, ps, rfl, rfl, rfl, rfl, h.symm⟩

theorem Message_parse_inv {data : Dict} {m : Message}
    (h : Message.parse data = .ok m) :
    ∃ dateRaw date fromRaw u,
      pyGetItem data "date" = .ok dateRaw ∧
      parse_date dateRaw = .ok date ∧
      pyGetItem data "from" = .ok fromRaw ∧
      parseUserObj fromRaw = .ok u ∧
      m = { message := pyGet data "message", date := date, from_user := u } := by
  unfold Message.parse at h
  cases h1 : pyGetItem data "date" with
  | error e => rw [h1, ebind_error] at h; exact absurd h (by simp)
  | ok dateRaw =>
  rw [h1] at h; simp only [ebind_ok] at h
  cases h2 : parse_date dateRaw with
  | error e => rw [h2, ebind_error] at h; exact absurd h (by simp)
  | ok date =>
  rw [h2] at h; simp only [ebind_ok] at h
  cases h3 : pyGetItem data "from" with
  | error e => rw [h3, ebind_error] at h; exact absurd h (by simp)
  | ok fromRaw =>
  rw [h3] at h; simp only [ebind_ok] at h
  cases h4 : parseUserObj fromRaw with
  | error e => rw [h4, ebind_error] at h; exact absurd h (by simp)
  | ok u =>
  rw [h4] at h; simp only [ebind_ok, Except.ok.injEq] at h
  exact ⟨dateRaw, date, fromRaw, u, rfl, h2, rfl, h4, h.symm⟩

theorem pyGetItem_ok {d : Dict} {k : String} {v : Json}
    (h : pyGetItem d k = .ok v) : d.lookup k = some v := by
  unfold pyGetItem at h
  cases hl : d.lookup k <;> rw [hl] at h <;> simp at h
  rw [h]

theorem parse_ts_of_lookup_none {data : Dict} {k : String} {o : Option Datetime}
    (hk : data.lookup k = none)
    (h : HipchatObject.parse_ts (pyGet data k) = .ok o) : o = none := by
  rw [pyGet_eq_null_of_lookup_none hk, parse_ts_null] at h
  exact (Except.ok.inj h).symm

theorem parse_ts_of_lookup_zero {data : Dict} {k : String} {o : Option Datetime}
    (hk : data.lookup k = some (.num 0))
    (h : HipchatObject.parse_ts (pyGet data k) = .ok o) : o = none := by
  rw [pyGet_eq_of_lookup hk, parse_ts_zero] at h
  exact (Except.ok.inj h).symm

theorem parse_ts_of_lookup_num {data : Dict} {k : String} {o : Option Datetime}
    {t : Int} (ht : t ≠ 0) (hk : data.lookup k = some (.num t))
    (h : HipchatObject.parse_ts (pyGet data k) = .ok o) :
    o = some (Datetime.fromtimestamp t) := by
  rw [pyGet_eq_of_lookup hk, parse_ts_num ht] at h
  exact (Except.ok.inj h).symm

theorem unwrap_cases (resp : Response) (m : Json)
    (h : errmsgOf resp.body = .ok m) :
    (resp.status_code = 200 → Api.unwrap_response resp = .ok resp.body) ∧
    (resp.status_code = 400 →
      Api.unwrap_response resp = .error (.hipchat (.badRequest m))) ∧
    (resp.status_code = 401 →
      Api.unwrap_response resp = .error (.hipchat (.authorizationError m))) ∧
    (resp.status_code = 403 →
      Api.unwrap_response resp = .error (.hipchat (.rateLimitExceeded m))) ∧
    (resp.status_code = 404 →
      Api.unwrap_response resp = .error (.hipchat (.notFoundError m))) ∧
    (resp.status_code = 503 →
      Api.unwrap_response resp = .error (.hipchat (.serviceUnavailable m))) ∧
    (resp.status_code ∉ ([200, 400, 401, 403, 404, 503] : List Nat) →
      Api.unwrap_response resp =
        .error (.hipchat (.hipchatError resp.status_code m))) := by
  unfold Api.unwrap_response
  simp only [h]
  refine ⟨fun hc => by simp [hc], fun hc => by simp [hc], fun hc => by simp [hc],
    fun hc => by simp [hc], fun hc => by simp [hc], fun hc => by simp [hc], fun hc => ?_⟩
  simp only [List.mem_cons, List.not_mem_nil, or_false, not_or] at hc
  obtain ⟨n200, n400, n401, n403, n404, n503⟩ := hc
  simp [n200, n400, n401, n403, n404, n503]

/-- C1: for every HTTP response, `Api._unwrap_response` maps the status
code as follows: 200 returns the parsed body (success), 400 raises
`BadRequest`, 401 raises `AuthorizationError`, 403 raises
`RateLimitExceeded`, 404 raises `NotFoundError`, 503 raises
`ServiceUnavailable`, and every other status code raises the generic
`HipchatError`.  The result type is a plain `Except`: no retry is
modelled anywhere, and `Api._get`/`Api._post` return the unwrapped
value directly, so the exception propagates to the caller.  The
hypothesis says the body's `error` field, when present, is an object
(otherwise line 77 raises `AttributeError` before the dispatch). -/
theorem claim_C1_status_code_mapping (resp : Response) (m : Json)
    (h : errmsgOf resp.body = .ok m) :
    (resp.status_code = 200 → Api.unwrap_response resp = .ok resp.body) ∧
    (resp.status_code = 400 →
      Api.unwrap_response resp = .error (.hipchat (.badRequest m))) ∧
    (resp.status_code = 401 →
      Api.unwrap_response resp = .error (.hipchat (.authorizationError m))) ∧
    (resp.status_code = 403 →
      Api.unwrap_response resp = .error (.hipchat (.rateLimitExceeded m))) ∧
    (resp.status_code = 404 →
      Api.unwrap_response resp = .error (.hipchat (.notFoundError m))) ∧
    (resp.status_code = 503 →
      Api.unwrap_response resp = .error (.hipchat (.serviceUnavailable m))) ∧
    (resp.status_code ∉ ([200, 400, 401, 403, 404, 503] : List Nat) →
      Api.unwrap_response resp =
        .error (.hipchat (.hipchatError resp.status_code m))) :=
  unwrap_cases resp m h

/-- Witness for C1 at a concrete 404 response and a concrete unknown
status code. -/
theorem claim_C1_witness :
    errmsgOf [("error", .obj [("message", .str "no such room")])]
      = .ok (.str "no such room") ∧
    Api.unwrap_response ⟨404, [("error", .obj [("message", .str "no such room")])]⟩
      = .error (.hipchat (.notFoundError (.str "no such room"))) ∧
    Api.unwrap_response ⟨500, [("error", .obj [("message", .str "boom")])]⟩
      = .error (.hipchat (.hipchatError 500 (.str "boom"))) :=
  ⟨rfl,
   (claim_C1_status_code_mapping
     ⟨404, [("error", .obj [("message", .str "no such room")])]⟩
     (.str "no such room") rfl).2.2.2.2.1 rfl,
   (claim_C1_status_code_mapping
     ⟨500, [("error", .obj [("message", .str "boom")])]⟩
     (.str "boom") rfl).2.2.2.2.2.2 (by decide)⟩

/-- C2: for every response whose status code is in
{400, 401, 403, 404, 503} and whose JSON body contains an `error`
object with a `message` field, the exception raised by
`Api._unwrap_response` carries exactly that `error.message` string as
its message. -/
theorem claim_C2_error_message (resp : Response) (efs : Dict) (s : String)
    (herr : resp.body.lookup "error" = some (.obj efs))
    (hmsg : efs.lookup "message" = some (.str s)) :
    (resp.status_code = 400 →
      Api.unwrap_response resp = .error (.hipchat (.badRequest (.str s)))) ∧
    (resp.status_code = 401 →
      Api.unwrap_response resp = .error (.hipchat (.authorizationError (.str s)))) ∧
    (resp.status_code = 403 →
      Api.unwrap_response resp = .error (.hipchat (.rateLimitExceeded (.str s)))) ∧
    (resp.status_code = 404 →
      Api.unwrap_response resp = .error (.hipchat (.notFoundError (.str s)))) ∧
    (resp.status_code = 503 →
      Api.unwrap_response resp = .error (.hipchat (.serviceUnavailable (.str s)))) := by
  have hm : errmsgOf resp.body = .ok (.str s) := by
    simp [errmsgOf, pyGetD, herr, hmsg]
  obtain ⟨-, h400, h401, h403, h404, h503, -⟩ := unwrap_cases resp (.str s) hm
  exact ⟨h400, h401, h403, h404, h503⟩

/-- Witness for C2 at a concrete 401 response. -/
theorem claim_C2_witness :
    ([("error", .obj [("message", .str "bad token")])] : Dict).lookup "error"
      = some (.obj [("message", .str "bad token")]) ∧
    Api.unwrap_response ⟨401, [("error", .obj [("message", .str "bad token")])]⟩
      = .error (.hipchat (.authorizationError (.str "bad token"))) :=
  ⟨rfl,
   (claim_C2_error_message ⟨401, [("error", .obj [("message", .str "bad token")])]⟩
     [("message", .str "bad token")] "bad token" rfl rfl).2.1 rfl⟩

/-- C3: for every response with status code 200, `Api._unwrap_response`
returns the parsed JSON body itself — the very same `Dict` value, so
structurally unmodified, no keys added, removed or altered. -/
theorem claim_C3_success_body_unmodified (resp : Response) (m : Json)
    (h : errmsgOf resp.body = .ok m) (h200 : resp.status_code = 200) :
    Api.unwrap_response resp = .ok resp.body :=
  (unwrap_cases resp m h).1 h200

/-- Witness for C3 at a concrete 200 response. -/
theorem claim_C3_witness :
    Api.unwrap_response ⟨200, [("rooms", .arr [.num 1]), ("k", .null)]⟩
      = .ok [("rooms", .arr [.num 1]), ("k", .null)] :=
  claim_C3_success_body_unmodified
    ⟨200, [("rooms", .arr [.num 1]), ("k", .null)]⟩
    (.str "Unknown error") rfl rfl

/-- C4: constructing a `User`, `Room` or `Message` from a well-formed
payload dict via `_parse` yields an object whose attributes equal the
corresponding payload fields: each attribute listed in the class's
`attributes` tuple holds `data.get(attr)`, a room's `_topic` holds
`data['topic']`, the coerced booleans equal `bool(int(...))` of the
payload value, non-zero timestamps become the corresponding datetimes,
a message's `date` is the parsed `data['date']` string and its
`from_user` is `User._parse` of `data['from']`. -/
theorem claim_C4_parse_roundtrip :
    (∀ data u, User.parse data = .ok u →
      u.user_id = pyGet data "user_id" ∧
      u.name = pyGet data "name" ∧
      u.mention_name = pyGet data "mention_name" ∧
      u.email = pyGet data "email" ∧
      u.title = pyGet data "title" ∧
      u.photo_url = pyGet data "photo_url" ∧
      u.status = pyGet data "status" ∧
      u.status_message = pyGet data "status_message" ∧
      u.password = pyGet data "password" ∧
      (∀ k : Int, data.lookup "is_group_admin" = some (.num k) →
        u.is_group_admin = (k != 0)) ∧
      (data.lookup "is_group_admin" = none → u.is_group_admin = false) ∧
      (∀ k : Int, data.lookup "is_deleted" = some (.num k) →
        u.is_deleted = (k != 0)) ∧
      (data.lookup "is_deleted" = none → u.is_deleted = false) ∧
      (∀ t : Int, t ≠ 0 → data.lookup "created" = some (.num t) →
        u.created = some (Datetime.fromtimestamp t)) ∧
      (∀ t : Int, t ≠ 0 → data.lookup "last_active" = some (.num t) →
        u.last_active = some (Datetime.fromtimestamp t))) ∧
    (∀ data r, Room.parse data = .ok r →
      r.xmpp_jid = pyGet data "xmpp_jid" ∧
      r.name = pyGet data "name" ∧
      r.is_archived = pyGet data "is_archived" ∧
      r.room_id = pyGet data "room_id" ∧
      r.owner_user_id = pyGet data "owner_user_id" ∧
      r.is_private = pyGet data "is_private" ∧
      r.guest_access_url = pyGet data "guest_access_url" ∧
      data.lookup "topic" = some r.topicAttr ∧
      (∀ t : Int, t ≠ 0 → data.lookup "created" = some (.num t) →
        r.created = some (Datetime.fromtimestamp t)) ∧
      (∀ t : Int, t ≠ 0 → data.lookup "last_active" = some (.num t) →
        r.last_active = some (Datetime.fromtimestamp t)) ∧
      parseParticipants data = .ok r.participants) ∧
    (∀ data msg, Message.parse data = .ok msg →
      msg.message = pyGet data "message" ∧
      (∀ s, data.lookup "date" = some (.str s) → msg.date = ⟨s⟩) ∧
      (∀ uf, data.lookup "from" = some (.obj uf) →
        User.parse uf = .ok msg.from_user)) := by
  refine ⟨?_, ?_, ?_⟩
  · intro data u h
    obtain ⟨iga, idl, la, cr, h1, h2, h3, h4, hu⟩ := User_parse_inv h
    subst hu
    refine ⟨rfl, rfl, rfl, rfl, rfl, rfl, rfl, rfl, rfl, ?_, ?_, ?_, ?_, ?_, ?_⟩
    · intro k hk
      rw [show pyGetD data "is_group_admin" (.num 0) = .num k by simp [pyGetD, hk]] at h1
      simp [pyInt] at h1
      subst h1
      rfl
    · intro hk
      rw [show pyGetD data "is_group_admin" (.num 0) = .num 0 by simp [pyGetD, hk]] at h1
      simp [pyInt] at h1
      subst h1
      rfl
    · intro k hk
      rw [show pyGetD data "is_deleted" (.num 0) = .num k by simp [pyGetD, hk]] at h2
      simp [pyInt] at h2
      subst h2
      rfl
    · intro hk
      rw [show pyGetD data "is_deleted" (.num 0) = .num 0 by simp [pyGetD, hk]] at h2
      simp [pyInt] at h2
      subst h2
      rfl
    · intro t ht hk
      exact parse_ts_of_lookup_num ht hk h4
    · intro t ht hk
      exact parse_ts_of_lookup_num ht hk h3
  · intro data r h
    obtain ⟨topic, la, cr, ps, h1, h2, h3, h4, hr⟩ := Room_parse_inv h
    subst hr
    refine ⟨rfl, rfl, rfl, rfl, rfl, rfl, rfl, pyGetItem_ok h1, ?_, ?_, h4⟩
    · intro t ht hk
      exact parse_ts_of_lookup_num ht hk h3
    · intro t ht hk
      exact parse_ts_of_lookup_num ht hk h2
  · intro data msg h
    obtain ⟨dateRaw, date, fromRaw, u, h1, h2, h3, h4, hm⟩ := Message_parse_inv h
    subst hm
    refine ⟨rfl, ?_, ?_⟩
    · intro s hk
      have h5 := pyGetItem_ok h1
      rw [hk] at h5
      obtain rfl : Json.str s = dateRaw := Option.some.inj h5
      simp [parse_date] at h2
      exact h2.symm
    · intro uf hk
      have h5 := pyGetItem_ok h3
      rw [hk] at h5
      obtain rfl : Json.obj uf = fromRaw := Option.some.inj h5
      exact h4

/-- Witness for C4 at concrete payloads for all three classes. -/
theorem claim_C4_witness :
    User.parse c4UserData = .ok c4User ∧
    c4User.is_group_admin = ((1 : Int) != 0) ∧
    c4User.created = some (Datetime.fromtimestamp 1000) ∧
    Room.parse c4RoomData = .ok c4Room ∧
    c4RoomData.lookup "topic" = some c4Room.topicAttr ∧
    Message.parse c4MsgData = .ok c4Msg ∧
    c4Msg.date = ⟨"2013-05-01T10:00:00+00:00"⟩ := by
  have hU : User.parse c4UserData = .ok c4User := rfl
  have hR : Room.parse c4RoomData = .ok c4Room := rfl
  have hM : Message.parse c4MsgData = .ok c4Msg := rfl
  obtain ⟨pU, pR, pM⟩ := claim_C4_parse_roundtrip
  have hu := pU c4UserData c4User hU
  exact ⟨hU,
    hu.2.2.2.2.2.2.2.2.2.1 1 rfl,
    hu.2.2.2.2.2.2.2.2.2.2.2.2.2.1 1000 (by decide) rfl,
    hR,
    (pR c4RoomData c4Room hR).2.2.2.2.2.2.2.1,
    hM,
    (pM c4MsgData c4Msg hM).2.1 "2013-05-01T10:00:00+00:00" rfl⟩

/-- C10: in `User._parse` and `Room._parse`, a `created` or
`last_active` field that is absent or equal to `0` yields `None` for the
corresponding attribute (`_parse_ts` maps a zero epoch timestamp to
`None`, not to a 1970 datetime, because `0` is falsy), while a non-zero
timestamp is converted to a datetime. -/
theorem claim_C10_zero_timestamp_none :
    (∀ data u, User.parse data = .ok u →
      (data.lookup "created" = none → u.created = none) ∧
      (data.lookup "created" = some (.num 0) → u.created = none) ∧
      (∀ t : Int, t ≠ 0 → data.lookup "created" = some (.num t) →
        u.created = some (Datetime.fromtimestamp t)) ∧
      (data.lookup "last_active" = none → u.last_active = none) ∧
      (data.lookup "last_active" = some (.num 0) → u.last_active = none) ∧
      (∀ t : Int, t ≠ 0 → data.lookup "last_active" = some (.num t) →
        u.last_active = some (Datetime.fromtimestamp t))) ∧
    (∀ data r, Room.parse data = .ok r →
      (data.lookup "created" = none → r.created = none) ∧
      (data.lookup "created" = some (.num 0) → r.created = none) ∧
      (∀ t : Int, t ≠ 0 → data.lookup "created" = some (.num t) →
        r.created = some (Datetime.fromtimestamp t)) ∧
      (data.lookup "last_active" = none → r.last_active = none) ∧
      (data.lookup "last_active" = some (.num 0) → r.last_active = none) ∧
      (∀ t : Int, t ≠ 0 → data.lookup "last_active" = some (.num t) →
        r.last_active = some (Datetime.fromtimestamp t))) := by
  constructor
  · intro data u h
    obtain ⟨iga, idl, la, cr, h1, h2, h3, h4, hu⟩ := User_parse_inv h
    subst hu
    exact ⟨fun hk => parse_ts_of_lookup_none hk h4,
           fun hk => parse_ts_of_lookup_zero hk h4,
           fun t ht hk => parse_ts_of_lookup_num ht hk h4,
           fun hk => parse_ts_of_lookup_none hk h3,
           fun hk => parse_ts_of_lookup_zero hk h3,
           fun t ht hk => parse_ts_of_lookup_num ht hk h3⟩
  · intro data r h
    obtain ⟨topic, la, cr, ps, h1, h2, h3, h4, hr⟩ := Room_parse_inv h
    subst hr
    exact ⟨fun hk => parse_ts_of_lookup_none hk h3,
           fun hk => parse_ts_of_lookup_zero hk h3,
           fun t ht hk => parse_ts_of_lookup_num ht hk h3,
           fun hk => parse_ts_of_lookup_none hk h2,
           fun hk => parse_ts_of_lookup_zero hk h2,
           fun t ht hk => parse_ts_of_lookup_num ht hk h2⟩

/-- Witness for C10: a zero timestamp maps to `None`, an absent one to
`None`, and a non-zero one to a datetime, on concrete payloads. -/
theorem claim_C10_witness :
    User.parse c10UserData = .ok c10User ∧
    c10User.created = none ∧
    c10User.last_active = none ∧
    Room.parse c10RoomData = .ok c10Room ∧
    c10Room.created = none ∧
    c10Room.last_active = some (Datetime.fromtimestamp 7) := by
  have hU : User.parse c10UserData = .ok c10User := rfl
  have hR : Room.parse c10RoomData = .ok c10Room := rfl
  obtain ⟨pU, pR⟩ := claim_C10_zero_timestamp_none
  have hu := pU c10UserData c10User hU
  have hr := pR c10RoomData c10Room hR
  exact ⟨hU, hu.2.1 rfl, hu.2.2.2.1 rfl, hR, hr.2.1 rfl,
    hr.2.2.2.2.2 7 (by decide) rfl⟩

/-- C5: the claim says every per-entity method issues exactly one HTTP
request, and in particular that `Room.history` with a `datetime.date`
argument issues exactly one GET.  The code contradicts this (and its own
docstring): after `date = date.strftime('%Y-%m-%d')` rebinds `date` to a
string, `date.today()` is an attribute lookup on that string, so every
invocation with a `datetime.date` argument raises `AttributeError` and
issues no request at all. -/
theorem claim_C5_history_date_attributeerror (api : Api) (room : Room)
    (d : PyDate) (tz : String) (http : Http) :
    Room.history api room (.date d) tz http
      = (.error (.attributeError "today"), []) :=
  rfl

/-- C6: every outbound request goes to `base_url + method`; a GET's
query string is the kwargs updated with `format=json` and `auth_token`
and a GET has no body; a POST's query string is exactly
`format=json` plus `auth_token`, so the entity fields are not in the
query string, and they are carried form-encoded in the body. -/
theorem claim_C6_request_parameters (api : Api) (method : String)
    (kwargs : Dict) (http : Http) :
    (Api.get api method kwargs http).2 = [api.getRequest method kwargs] ∧
    (api.getRequest method kwargs).url = api.base_url ++ method ∧
    (api.getRequest method kwargs).params.lookup "auth_token"
      = some (.str api.auth_token) ∧
    (api.getRequest method kwargs).params.lookup "format" = some (.str "json") ∧
    (api.getRequest method kwargs).form = [] ∧
    (Api.post api method kwargs http).2 = [api.postRequest method kwargs] ∧
    (api.postRequest method kwargs).url = api.base_url ++ method ∧
    (api.postRequest method kwargs).params
      = [("format", .str "json"), ("auth_token", .str api.auth_token)] ∧
    (∀ k v, kwargs.lookup k = some v →
      (api.postRequest method kwargs).form.lookup k = some v) := by
  refine ⟨rfl, rfl, ?_, ?_, rfl, rfl, rfl, rfl, ?_⟩
  · simp only [Api.getRequest, pyUpdate, List.foldl]
    exact lookup_dset_self _ _ _
  · simp only [Api.getRequest, pyUpdate, List.foldl]
    rw [lookup_dset_ne _ _ _ _ (by decide)]
    exact lookup_dset_self _ _ _
  · intro k v hk
    simp only [Api.postRequest]
    by_cases hf : (kwargs.lookup "from").isNone = true
    · rw [if_pos hf]
      by_cases hkf : k = "from"
      · subst hkf
        rw [hk] at hf
        simp at hf
      · rw [lookup_dset_ne _ _ _ _ hkf]
        exact hk
    · rw [if_neg hf]
      exact hk

/-- Witness for C6: a concrete POST carries its entity field in the
body and a concrete GET carries the auth token in the query string. -/
theorem claim_C6_witness :
    (apiW.postRequest "rooms/delete" [("room_id", .num 1)]).form.lookup "room_id"
      = some (.num 1) ∧
    (apiW.getRequest "rooms/list" []).params.lookup "auth_token"
      = some (.str "secret-token") := by
  constructor
  · exact (claim_C6_request_parameters apiW "rooms/delete" [("room_id", .num 1)]
      httpOkEmpty).2.2.2.2.2.2.2.2 "room_id" (.num 1) rfl
  · exact (claim_C6_request_parameters apiW "rooms/list" [] httpOkEmpty).2.2.1

/-- C7: reading a Room's `topic` property issues no HTTP call (by
construction the getter takes no HTTP argument) and returns the stored
last-known value — the value parsed out of the most recent payload, or
the value installed by the most recent successful set.  Setting the
topic issues exactly one POST to `rooms/topic` and assigns the backing
field only after `_post` returns, so a set whose POST raises leaves the
stored topic (and the whole room object) unchanged. -/
theorem claim_C7_topic_property (api : Api) (room : Room) (v : Json)
    (http : Http) (data : Dict) (r : Room) :
    Room.topic room = room.topicAttr ∧
    (Room.parse data = .ok r → ∀ tv, data.lookup "topic" = some tv →
      Room.topic r = tv) ∧
    (Room.topic_set api room v http).2
      = [api.postRequest "rooms/topic" [("room_id", room.room_id), ("topic", v)]] ∧
    ((Room.topic_set api room v http).1.1 = .ok () →
      Room.topic (Room.topic_set api room v http).1.2 = v) ∧
    (∀ e, (Room.topic_set api room v http).1.1 = .error e →
      (Room.topic_set api room v http).1.2 = room) := by
  refine ⟨rfl, ?_, ?_, ?_, ?_⟩
  · intro hp tv htv
    obtain ⟨topic, la, cr, ps, h1, h2, h3, h4, hr⟩ := Room_parse_inv hp
    subst hr
    have h5 := pyGetItem_ok h1
    rw [htv] at h5
    exact (Option.some.inj h5).symm
  · cases hr : Api.unwrap_response
      (http (api.postRequest "rooms/topic" [("room_id", room.room_id), ("topic", v)])) with
    | ok d => simp [Room.topic_set, Api.post, hr]
    | error e => simp [Room.topic_set, Api.post, hr]
  · intro hok
    cases hr : Api.unwrap_response
      (http (api.postRequest "rooms/topic" [("room_id", room.room_id), ("topic", v)])) with
    | ok d => simp [Room.topic_set, Api.post, hr, Room.topic]
    | error e => simp [Room.topic_set, Api.post, hr] at hok
  · intro e he
    cases hr : Api.unwrap_response
      (http (api.postRequest "rooms/topic" [("room_id", room.room_id), ("topic", v)])) with
    | ok d => simp [Room.topic_set, Api.post, hr] at he
    | error e2 => simp [Room.topic_set, Api.post, hr]

/-- Witness for C7: against a 200 service the set succeeds and installs
the new topic; against a 503 service the set raises and the room object
is unchanged. -/
theorem claim_C7_witness :
    (Room.topic_set apiW c7Room (.str "new topic") httpOkEmpty).1.1 = .ok () ∧
    Room.topic (Room.topic_set apiW c7Room (.str "new topic") httpOkEmpty).1.2
      = .str "new topic" ∧
    (Room.topic_set apiW c7Room (.str "new topic") http503).1.2 = c7Room := by
  refine ⟨rfl, ?_, ?_⟩
  · exact (claim_C7_topic_property apiW c7Room (.str "new topic") httpOkEmpty
      [] c7Room).2.2.2.1 rfl
  · exact (claim_C7_topic_property apiW c7Room (.str "new topic") http503
      [] c7Room).2.2.2.2
      (.hipchat (.serviceUnavailable (.str "Unknown error"))) rfl

/-- C8: `Room.delete` and `User.delete` only issue their one remote
POST; the local object (returned unchanged by the embedding, mirroring
method bodies that never assign to `self`) keeps every attribute, and no
other locally held object is touched (no aliasing exists in the model),
i.e. there is no local cache invalidation. -/
theorem claim_C8_delete_frame (api : Api) (room : Room) (user : User)
    (http : Http) :
    (Room.delete api room http).1.2 = room ∧
    (Room.delete api room http).2
      = [api.postRequest "rooms/delete" [("room_id", room.room_id)]] ∧
    (User.delete api user http).1.2 = user ∧
    (User.delete api user http).2
      = [api.postRequest "users/delete" [("user_id", user.user_id)]] :=
  ⟨rfl, rfl, rfl, rfl⟩

/-- C9: `User.undelete` raises `ValueError` and issues no request
exactly when both identifiers or neither are provided; with exactly one
identifier it issues one POST to `users/undelete` whose `user_id` body
field carries that identifier, and no `ValueError` can come out of that
call (the remaining failures are the HTTP-status exceptions). -/
theorem claim_C9_undelete_validation (api : Api) (uid em x : Json)
    (http : Http) :
    User.undelete api (some uid) (some em) http
      = (.error (.valueError
          "only one of user_id or user_email should be provided, not both"), []) ∧
    User.undelete api none none http
      = (.error (.valueError
          "either user_id or user_email should be provided"), []) ∧
    (User.undelete api (some x) none http).2
      = [api.postRequest "users/undelete" [("user_id", x)]] ∧
    (User.undelete api none (some x) http).2
      = [api.postRequest "users/undelete" [("user_id", x)]] ∧
    (api.postRequest "users/undelete" [("user_id", x)]).verb = "POST" ∧
    (api.postRequest "users/undelete" [("user_id", x)]).form.lookup "user_id"
      = some x ∧
    (∀ s, (User.undelete api (some x) none http).1 ≠ .error (.valueError s)) ∧
    (∀ s, (User.undelete api none (some x) http).1 ≠ .error (.valueError s)) := by
  refine ⟨rfl, rfl, rfl, rfl, rfl, rfl, ?_, ?_⟩
  · exact fun s => unwrap_response_ne_valueError _ s
  · exact fun s => unwrap_response_ne_valueError _ s

/-- Witness for C5: a concrete `datetime.date` argument makes
`Room.history` raise `AttributeError` with zero requests issued. -/
theorem claim_C5_witness :
    Room.history apiW c5Room (.date ⟨2013, 5, 1⟩) "UTC" httpOkEmpty
      = (.error (.attributeError "today"), []) :=
  claim_C5_history_date_attributeerror apiW c5Room ⟨2013, 5, 1⟩ "UTC" httpOkEmpty

/-- Witness for C8 at concrete objects, against both a succeeding and a
failing service. -/
theorem claim_C8_witness :
    (Room.delete apiW c8Room httpOkEmpty).1.2 = c8Room ∧
    (User.delete apiW c8User http503).1.2 = c8User :=
  ⟨(claim_C8_delete_frame apiW c8Room c8User httpOkEmpty).1,
   (claim_C8_delete_frame apiW c8Room c8User http503).2.2.1⟩

/-- Witness for C9 at concrete identifiers. -/
theorem claim_C9_witness :
    User.undelete apiW (some (.num 4)) (some (.str "a@b.c")) httpOkEmpty
      = (.error (.valueError
          "only one of user_id or user_email should be provided, not both"), []) ∧
    (User.undelete apiW (some (.num 4)) none httpOkEmpty).2
      = [apiW.postRequest "users/undelete" [("user_id", .num 4)]] ∧
    (User.undelete apiW (some (.num 4)) none httpOkEmpty).1
      ≠ .error (.valueError "boom") := by
  obtain ⟨a, b, c, d, e, f, g, h⟩ :=
    claim_C9_undelete_validation apiW (.num 4) (.str "a@b.c") (.num 4) httpOkEmpty
  exact ⟨a, c, g "boom"⟩
